import Mathlib

/-!
Verification of the MX32 backend's request-classification and response-assembly
pipeline.  The definitions below are a shallow embedding of the Python sources
(`src/services/simple_rag_agent.py`, `src/services/rag_langchain_agent.py`,
`src/services/cerebras_client.py`, `src/rag_agent.py`, `src/rag_service.py`,
`src/tools/rag_tools.py`).  External collaborators (the Firestore document
store, the external metric HTTP endpoints and the chat-completion provider) are
modelled as explicit data or oracle functions passed to the embedded
operations.
-/

set_option maxRecDepth 8000

namespace MX32

/-! ## String helpers

Messages are compared after Python's `str.lower()`.  `pyLowerChar` covers the
Latin letters that occur in the code base's keyword lists (ASCII plus the
accented uppercase vowels and Ñ/Ü, which Python lowercases to their accented
lowercase forms). -/

def pyLowerChar (c : Char) : Char :=
  if c = 'Á' then 'á' else if c = 'É' then 'é' else if c = 'Í' then 'í'
  else if c = 'Ó' then 'ó' else if c = 'Ú' then 'ú' else if c = 'Ñ' then 'ñ'
  else if c = 'Ü' then 'ü' else c.toLower

def pyLower (s : String) : List Char := s.data.map pyLowerChar

def pyLowerStr (s : String) : String := String.mk (pyLower s)

/-- `leadsWith needle hay` holds when `needle` occurs at the start of `hay`. -/
def leadsWith : List Char → List Char → Bool
  | [], _ => true
  | _ :: _, [] => false
  | a :: as, b :: bs => a == b && leadsWith as bs

/-- Substring containment, Python's `needle in hay` on strings. -/
def containsSub (needle : List Char) : List Char → Bool
  | [] => leadsWith needle []
  | c :: cs => leadsWith needle (c :: cs) || containsSub needle cs

/-- Python's `keyword in message.lower()`: the (already lowercase) keyword
occurs as a substring of the lowercased message. -/
def kwIn (kw : String) (message : String) : Bool :=
  containsSub kw.data (pyLower message)

/-- Python `x or default` on an optional string: `None` and `""` are falsy. -/
def pyOrStr (o : Option String) (d : String) : String :=
  match o with
  | none => d
  | some s => if s = "" then d else s

/-- Python truthiness of an optional string. -/
def truthyOpt (o : Option String) : Bool :=
  match o with
  | none => false
  | some s => !(s == "")

def optVal (o : Option String) : String := o.getD ""

/-! ## Geographic Scope Guard

`SimpleRAGAgent._check_mexico_restriction` (simple_rag_agent.py lines 55-91);
`RAGLangChainAgent._check_mexico_restriction` (rag_langchain_agent.py lines
278-314) is character-for-character identical. -/

def external_countries : List String :=
  ["estados unidos", "usa", "eeuu", "united states", "america",
   "canada", "canadá", "brasil", "argentina", "colombia", "chile",
   "peru", "perú", "venezuela", "ecuador", "bolivia", "paraguay",
   "uruguay", "españa", "spain", "francia", "france", "alemania",
   "germany", "italia", "italy", "china", "japon", "japón",
   "corea", "korea", "india", "rusia", "russia", "australia",
   "nueva zelanda", "new zealand", "reino unido", "uk", "inglaterra"]

def mexico_indicators : List String :=
  ["mexico", "méxico", "estados", "estado", "jalisco", "nuevo león",
   "ciudad de méxico", "cdmx", "yucatán", "quintana roo", "campeche",
   "tabasco", "chiapas", "oaxaca", "veracruz", "puebla", "tlaxcala",
   "hidalgo", "querétaro", "san luis potosí", "tamaulipas", "coahuila",
   "durango", "zacatecas", "aguascalientes", "guanajuato", "michoacán",
   "guerrero", "morelos", "mexico", "baja california", "baja california sur",
   "sonora", "sinaloa", "nayarit", "colima"]

def foreignRefusal : String :=
  "Lo siento, pero solo puedo proporcionar información sobre datos de México. Mi base de datos contiene únicamente información de los 32 estados mexicanos que puedes visualizar en las gráficas de la plataforma. ¿Te gustaría que te ayude con información sobre algún estado específico de México? 🇲🇽"

def genericRefusal : String :=
  "Solo puedo ayudarte con información sobre los 32 estados de México. Mi base de datos contiene datos específicos de seguridad, economía, infraestructura, educación y otros parámetros de los estados mexicanos que puedes ver en las gráficas de la plataforma. ¿Sobre qué estado de México te gustaría saber? 🇲🇽"

/-- `_check_mexico_restriction(message)`: the Python `for country in
external_countries: if country in message_lower: return (False, …)` loop is the
first match of `find?`; the Mexican-context scan is `any(...)`. -/
def check_mexico_restriction (message : String) : Bool × String :=
  match external_countries.find? (fun country => kwIn country message) with
  | some _ => (false, foreignRefusal)
  | none =>
      if mexico_indicators.any (fun indicator => kwIn indicator message) then
        (true, "")
      else
        (false, genericRefusal)

/-- Spec-side predicate: the lowercased message contains a foreign-country
keyword. -/
def hasForeignKeyword (m : String) : Bool :=
  external_countries.any (fun c => kwIn c m)

/-- Spec-side predicate: the lowercased message contains a Mexican-context
keyword. -/
def hasMexicoKeyword (m : String) : Bool :=
  mexico_indicators.any (fun i => kwIn i m)

/-! ## Intent classifier

`RAGLangChainAgent._determine_intent` (rag_langchain_agent.py lines 316-331). -/

def comparison_keywords : List String := ["comparar", "comparación", "vs", "versus"]
def trend_keywords : List String := ["tendencia", "histórico", "evolución", "cambio"]
def recommendation_keywords : List String := ["recomendación", "sugerencia", "qué hacer"]
def similar_keywords : List String := ["similar", "parecido", "como"]
def rag_keywords : List String := ["rag", "datos", "firebase", "análisis"]

def determine_intent (message : String) : String :=
  if comparison_keywords.any (fun k => kwIn k message) then "comparison"
  else if trend_keywords.any (fun k => kwIn k message) then "trend_analysis"
  else if recommendation_keywords.any (fun k => kwIn k message) then "recommendations"
  else if similar_keywords.any (fun k => kwIn k message) then "similar_states"
  else if rag_keywords.any (fun k => kwIn k message) then "rag_analysis"
  else "general_analysis"

/-! ## Entity extraction

`SimpleRAGAgent._extract_entities_from_message` (simple_rag_agent.py lines
37-53). -/

def mexico_keywords : List String :=
  ["mexico", "méxico", "estados", "estado", "ciudad", "municipio",
   "seguridad", "economia", "economía", "desarrollo", "infraestructura",
   "educacion", "educación", "salud", "empleo", "pobreza", "crimen"]

def extract_entities_from_message (message : String) : List String :=
  mexico_keywords.filter (fun keyword => kwIn keyword message)

/-! ## Theorems about the Scope Guard and the Intent Classifier -/

lemma find?_isSome_eq_any (l : List α) (p : α → Bool) :
    (l.find? p).isSome = l.any p := by
  rcases hf : l.find? p with _ | c
  · rw [List.find?_eq_none] at hf
    rw [Option.isSome_none]
    symm
    rw [List.any_eq_false]
    exact hf
  · rw [Option.isSome_some]
    symm
    rw [List.any_eq_true]
    exact ⟨c, List.mem_of_find?_eq_some hf, List.find?_some hf⟩

/-- C1: the Scope Guard lowercases the message and checks the foreign-country
list first: any foreign-country substring yields `(false, foreignRefusal)`
regardless of Mexican-context keywords; otherwise a Mexican-context substring
yields `(true, "")` (Allowed) and no match at all yields
`(false, genericRefusal)`; in particular the empty message is rejected with the
generic refusal. -/
theorem C1_scope_guard (m : String) :
    (hasForeignKeyword m = true →
        check_mexico_restriction m = (false, foreignRefusal)) ∧
    (hasForeignKeyword m = false → hasMexicoKeyword m = true →
        check_mexico_restriction m = (true, "")) ∧
    (hasForeignKeyword m = false → hasMexicoKeyword m = false →
        check_mexico_restriction m = (false, genericRefusal)) ∧
    check_mexico_restriction "" = (false, genericRefusal) := by
  have hbridge := find?_isSome_eq_any external_countries (fun c => kwIn c m)
  refine ⟨?_, ?_, ?_, by decide⟩
  · intro h
    rw [hasForeignKeyword] at h
    rw [h] at hbridge
    rcases hf : external_countries.find? (fun c => kwIn c m) with _ | c
    · rw [hf] at hbridge
      simp at hbridge
    · rw [check_mexico_restriction, hf]
  · intro h hmex
    rw [hasForeignKeyword] at h
    rw [h] at hbridge
    rcases hf : external_countries.find? (fun c => kwIn c m) with _ | c
    · rw [hasMexicoKeyword] at hmex
      rw [check_mexico_restriction, hf, hmex]
      simp
    · rw [hf] at hbridge
      simp at hbridge
  · intro h hmex
    rw [hasForeignKeyword] at h
    rw [h] at hbridge
    rcases hf : external_countries.find? (fun c => kwIn c m) with _ | c
    · rw [hasMexicoKeyword] at hmex
      rw [check_mexico_restriction, hf, hmex]
      simp
    · rw [hf] at hbridge
      simp at hbridge

/-- Witness for C1 at a concrete message containing both a foreign country and
a Mexican state: the foreign-country check wins. -/
theorem C1_scope_guard_witness :
    hasForeignKeyword "jalisco y estados unidos" = true ∧
    check_mexico_restriction "jalisco y estados unidos" = (false, foreignRefusal) :=
  ⟨by decide, (C1_scope_guard "jalisco y estados unidos").1 (by decide)⟩

/-- C5: the intent classifier is a pure function of the lowercased message and
evaluates a fixed priority list first-match-wins: comparison, then trend
analysis, then recommendations, then similar states, then rag analysis, with
`general_analysis` as the fallback. -/
theorem C5_intent_first_match (m m' : String) :
    (pyLower m = pyLower m' → determine_intent m = determine_intent m') ∧
    (comparison_keywords.any (fun k => kwIn k m) = true →
        determine_intent m = "comparison") ∧
    (comparison_keywords.any (fun k => kwIn k m) = false →
      trend_keywords.any (fun k => kwIn k m) = true →
        determine_intent m = "trend_analysis") ∧
    (comparison_keywords.any (fun k => kwIn k m) = false →
      trend_keywords.any (fun k => kwIn k m) = false →
      recommendation_keywords.any (fun k => kwIn k m) = true →
        determine_intent m = "recommendations") ∧
    (comparison_keywords.any (fun k => kwIn k m) = false →
      trend_keywords.any (fun k => kwIn k m) = false →
      recommendation_keywords.any (fun k => kwIn k m) = false →
      similar_keywords.any (fun k => kwIn k m) = true →
        determine_intent m = "similar_states") ∧
    (comparison_keywords.any (fun k => kwIn k m) = false →
      trend_keywords.any (fun k => kwIn k m) = false →
      recommendation_keywords.any (fun k => kwIn k m) = false →
      similar_keywords.any (fun k => kwIn k m) = false →
      rag_keywords.any (fun k => kwIn k m) = true →
        determine_intent m = "rag_analysis") ∧
    (comparison_keywords.any (fun k => kwIn k m) = false →
      trend_keywords.any (fun k => kwIn k m) = false →
      recommendation_keywords.any (fun k => kwIn k m) = false →
      similar_keywords.any (fun k => kwIn k m) = false →
      rag_keywords.any (fun k => kwIn k m) = false →
        determine_intent m = "general_analysis") := by
  refine ⟨?_, ?_, ?_, ?_, ?_, ?_, ?_⟩
  · intro h
    simp only [determine_intent, kwIn, h]
  · intro h1
    simp [determine_intent, h1]
  · intro h1 h2
    simp [determine_intent, h1, h2]
  · intro h1 h2 h3
    simp [determine_intent, h1, h2, h3]
  · intro h1 h2 h3 h4
    simp [determine_intent, h1, h2, h3, h4]
  · intro h1 h2 h3 h4 h5
    simp [determine_intent, h1, h2, h3, h4, h5]
  · intro h1 h2 h3 h4 h5
    simp [determine_intent, h1, h2, h3, h4, h5]

/-- Witness for C5 at a concrete message containing both a comparison keyword
and a trend keyword: the comparison bucket (checked first) wins. -/
theorem C5_intent_first_match_witness :
    determine_intent "comparar la tendencia" = "comparison" :=
  (C5_intent_first_match "comparar la tendencia" "").2.1 (by decide)

/-! ## Conversation Session Store

`SimpleRAGAgent.process_chat_with_rag` memory update (simple_rag_agent.py
lines 223-230): per request the user message and the assistant reply are
appended, then the list is truncated to its last 20 entries
(`conversation_memory[-20:]`) whenever it exceeds 20. -/

/-- One stored history entry: `{"role": …, "content": …}`. -/
abbrev MemEntry := String × String

def updateConversationMemory (conversation_memory : List MemEntry)
    (user_message response_text : String) : List MemEntry :=
  let mem := conversation_memory ++
    [(("user", user_message) : MemEntry), ("assistant", response_text)]
  if mem.length > 20 then mem.drop (mem.length - 20) else mem

/-- The last `n` entries of a list (all of it when it is shorter), Python's
`l[-n:]` for `n > 0`. -/
def lastN (n : Nat) (l : List α) : List α := l.drop (l.length - n)

/-- The stored history of one session after a sequence of chat requests, each
request contributing one (user message, assistant reply) pair; a fresh session
starts from the empty list. -/
def runMemory (turns : List (String × String)) : List MemEntry :=
  turns.foldl (fun mem t => updateConversationMemory mem t.1 t.2) []

/-- All entries ever appended for a sequence of requests, oldest first. -/
def entriesOf (turns : List (String × String)) : List MemEntry :=
  (turns.map (fun t => [(("user", t.1) : MemEntry), ("assistant", t.2)])).flatten

lemma lastN_length_le (n : Nat) (l : List α) : (lastN n l).length ≤ n := by
  simp only [lastN, List.length_drop]
  omega

lemma lastN_of_length_le (n : Nat) (l : List α) (h : l.length ≤ n) :
    lastN n l = l := by
  simp only [lastN]
  rw [show l.length - n = 0 by omega]
  exact List.drop_zero l

lemma drop_append_ge (x m : List α) (k : Nat) (h : x.length ≤ k) :
    (x ++ m).drop k = m.drop (k - x.length) := by
  have hd : (x ++ m).drop (x.length + (k - x.length)) = m.drop (k - x.length) :=
    List.drop_append _
  rw [show x.length + (k - x.length) = k by omega] at hd
  exact hd

lemma drop_append_le (x m : List α) (k : Nat) (h : k ≤ x.length) :
    (x ++ m).drop k = x.drop k ++ m :=
  List.drop_append_of_le_length h

lemma lastN_append (n : Nat) (l m : List α) :
    lastN n (lastN n l ++ m) = lastN n (l ++ m) := by
  rcases le_or_lt n m.length with h | h
  · simp only [lastN, List.length_append, List.length_drop]
    rw [drop_append_ge _ _ _ (by simp only [List.length_drop]; omega)]
    rw [drop_append_ge _ _ _ (by omega)]
    congr 1
    simp only [List.length_drop]
    omega
  · simp only [lastN, List.length_append, List.length_drop]
    rw [drop_append_le _ _ _ (by simp only [List.length_drop]; omega)]
    rw [drop_append_le _ _ _ (by omega)]
    congr 1
    rw [List.drop_drop]
    congr 1
    omega

lemma updateConversationMemory_eq_lastN (h : List MemEntry) (u a : String) :
    updateConversationMemory h u a
      = lastN 20 (h ++ [(("user", u) : MemEntry), ("assistant", a)]) := by
  unfold updateConversationMemory
  dsimp only
  split
  · rfl
  · next hle =>
    exact (lastN_of_length_le 20 _ (by omega)).symm

lemma runMemory_from (turns : List (String × String)) :
    ∀ acc : List MemEntry, acc.length ≤ 20 →
      turns.foldl (fun mem t => updateConversationMemory mem t.1 t.2) acc
        = lastN 20 (acc ++ entriesOf turns) := by
  induction turns with
  | nil =>
      intro acc hacc
      simp only [List.foldl_nil, entriesOf, List.map_nil, List.flatten_nil,
        List.append_nil]
      exact (lastN_of_length_le 20 acc hacc).symm
  | cons t ts ih =>
      intro acc hacc
      simp only [List.foldl_cons]
      rw [ih _ (by rw [updateConversationMemory_eq_lastN]; exact lastN_length_le _ _)]
      rw [updateConversationMemory_eq_lastN, lastN_append]
      simp only [entriesOf, List.map_cons, List.flatten_cons, List.append_assoc,
        List.cons_append, List.nil_append]

/-- C4: after any sequence of chat requests the stored history has at most 20
entries and consists of exactly the most recent appended entries (the oldest
are dropped). -/
theorem C4_memory_window (turns : List (String × String)) :
    (runMemory turns).length ≤ 20 ∧
    runMemory turns = lastN 20 (entriesOf turns) := by
  have h := runMemory_from turns [] (by simp)
  rw [runMemory, h, List.nil_append]
  exact ⟨lastN_length_le _ _, rfl⟩

/-! ## State Data Aggregator

`RAGAgent.obtener_datos_estado_completo` (rag_agent.py lines 68-163).  The
Firestore document store is modelled as explicit lists of typed documents, one
per collection used; queries keep the list order (a `limit(1)` stream is
`find?`).  The external metric HTTP endpoints are an oracle
`http : String → Option String`: `some payload` is a 200 response with a JSON
body, `none` is any non-200 status or a raised exception. -/

structure StateDoc where
  id : String
  states_name : String
  state_id_replacement : Option String
deriving DecidableEq

structure ParamDoc where
  id : String
  name : Option String
  related_apis : List String
deriving DecidableEq

structure SpecialTextDoc where
  states_r : String
  parameter_r : String
  added_text : Option String
deriving DecidableEq

structure ApiDoc where
  id : String
  apis_name : String
  dynamic_url : String
deriving DecidableEq

structure Firestore where
  states : List StateDoc
  parameters : List ParamDoc
  special_text : List SpecialTextDoc
  apis : List ApiDoc
deriving DecidableEq

/-- One entry of a parameter's `datos_apis` list. -/
structure ApiResult where
  nombre : String
  url : String
  datos : String
deriving DecidableEq

/-- The `ParametroData` dataclass (rag_agent.py lines 30-36). -/
structure ParametroData where
  id : String
  nombre : String
  texto_analisis : String
  datos_apis : List ApiResult
deriving DecidableEq

/-- The `EstadoData` dataclass (rag_agent.py lines 22-28); the `parametros`
dict is an insertion-ordered association list with unique keys. -/
structure EstadoData where
  id : String
  nombre : String
  state_id_replacement : Option String
  parametros : List (String × ParametroData)
deriving DecidableEq

/-- Python dict assignment `d[k] = v`: replace in place if the key exists,
append otherwise. -/
def dictInsert (k : String) (v : α) : List (String × α) → List (String × α)
  | [] => [(k, v)]
  | (k', v') :: rest =>
      if k' = k then (k, v) :: rest else (k', v') :: dictInsert k v rest

def statePattern : List Char := "{state_id}".data

/-- Python `str.replace('{state_id}', repl)`: replace every occurrence.  The
fuel argument is the length of the remaining text; every step consumes at
least one character, so that much fuel always suffices. -/
def replaceStateIdGo (repl : List Char) : Nat → List Char → List Char
  | 0, l => l
  | _ + 1, [] => []
  | fuel + 1, c :: cs =>
      if leadsWith statePattern (c :: cs) then
        repl ++ replaceStateIdGo repl fuel ((c :: cs).drop statePattern.length)
      else
        c :: replaceStateIdGo repl fuel cs

def replaceStateId (url : String) (repl : String) : String :=
  String.mk (replaceStateIdGo repl.data url.data.length url.data)

def analysisPlaceholder : String :=
  "No se encontró un texto de análisis para este parámetro."

/-- Steps 3 of the aggregation: the composite-key lookup into `special_text`
(`states_r == estado_id`, `parameter_r == param_id`, `limit(1)`); on a miss, or
when the document lacks `added_text`, the fixed placeholder is used. -/
def textoFor (store : Firestore) (estado_id param_id : String) : String :=
  match store.special_text.find?
      (fun t => t.states_r == estado_id && t.parameter_r == param_id) with
  | some text_data => text_data.added_text.getD analysisPlaceholder
  | none => analysisPlaceholder

/-- The per-parameter API loop (rag_agent.py lines 123-145): for each related
api id, fetch the api document, substitute `{state_id}` in its templated URL,
skip empty URLs, and keep only successful fetches. -/
def fetchApisGo (store : Firestore) (http : String → Option String)
    (state_id_replacement : String) : List String → List ApiResult
  | [] => []
  | api_id :: rest =>
      match store.apis.find? (fun a => a.id == api_id) with
      | none => fetchApisGo store http state_id_replacement rest
      | some api_data =>
          let api_url := replaceStateId api_data.dynamic_url state_id_replacement
          if api_url = "" then fetchApisGo store http state_id_replacement rest
          else
            match http api_url with
            | some payload =>
                { nombre := api_data.apis_name, url := api_url, datos := payload }
                  :: fetchApisGo store http state_id_replacement rest
            | none => fetchApisGo store http state_id_replacement rest

/-- Step 4 guard (rag_agent.py line 121): `if related_api_ids and
state_id_replacement:` — both must be truthy, else `datos_apis` stays `[]`. -/
def fetchApis (store : Firestore) (http : String → Option String)
    (state_id_replacement : Option String) (related_api_ids : List String) :
    List ApiResult :=
  match state_id_replacement with
  | none => []
  | some s =>
      if related_api_ids = [] ∨ s = "" then []
      else fetchApisGo store http s related_api_ids

/-- The parameter loop (rag_agent.py lines 99-152): parameters whose `name` is
absent or empty are skipped (`if not param_name: continue`); each kept
parameter is written into the `parametros_data` dict. -/
def buildParams (store : Firestore) (http : String → Option String)
    (estado_id : String) (state_id_replacement : Option String) :
    List ParamDoc → List (String × ParametroData) → List (String × ParametroData)
  | [], parametros_data => parametros_data
  | param :: rest, parametros_data =>
      match param.name with
      | none => buildParams store http estado_id state_id_replacement rest parametros_data
      | some param_name =>
          if param_name = "" then
            buildParams store http estado_id state_id_replacement rest parametros_data
          else
            buildParams store http estado_id state_id_replacement rest
              (dictInsert param_name
                { id := param.id, nombre := param_name,
                  texto_analisis := textoFor store estado_id param.id,
                  datos_apis := fetchApis store http state_id_replacement
                    param.related_apis }
                parametros_data)

/-- `RAGAgent.obtener_datos_estado_completo(estado_nombre)`: resolve the state
by exact match on the lowercased name (`where('states_name', '==',
estado_nombre.lower()).limit(1)`), `None` when absent; otherwise assemble the
`EstadoData` — note `nombre` echoes the caller's original `estado_nombre`. -/
def obtener_datos_estado_completo (store : Firestore)
    (http : String → Option String) (estado_nombre : String) :
    Option EstadoData :=
  match store.states.find? (fun d => d.states_name == pyLowerStr estado_nombre) with
  | none => none
  | some estado_doc =>
      some { id := estado_doc.id, nombre := estado_nombre,
             state_id_replacement := estado_doc.state_id_replacement,
             parametros := buildParams store http estado_doc.id
               estado_doc.state_id_replacement store.parameters [] }

/-! ## RAG service layer

`RAGService.consulta_estado_con_rag` (rag_service.py lines 18-81).  A raised
`HTTPException` is the `.error` constructor carrying `(status_code, detail)`.
The optional `pregunta` argument is `None` at every call site modelled here, so
the `respuesta_ia` enrichment step never fires and is omitted. -/

structure ParamView where
  texto_analisis : String
  datos_apis : List ApiResult
deriving DecidableEq

structure RespuestaRag where
  estado : String
  datos_por_parametro : List (String × ParamView)
  rag_habilitado : Bool
  timestamp : String
deriving DecidableEq

deriving instance DecidableEq for Except

def notFoundDetail (estado_nombre : String) : String :=
  "No se encontraron datos para el estado " ++ estado_nombre

/-- Step 3 of the service: keep only requested parameters that exist on the
aggregated view (`if param in estado_data.parametros`). -/
def filterParams (requested : List String)
    (parametros : List (String × ParametroData)) :
    List (String × ParametroData) :=
  requested.foldl (fun acc param =>
    match parametros.lookup param with
    | some pd => dictInsert param pd acc
    | none => acc) []

def consulta_estado_con_rag (store : Firestore) (http : String → Option String)
    (estado_nombre : String) (parametros : Option (List String)) :
    Except (Nat × String) RespuestaRag :=
  match obtener_datos_estado_completo store http estado_nombre with
  | none => .error (404, notFoundDetail estado_nombre)
  | some estado_data =>
      let parametros_filtrados :=
        match parametros with
        | some (p :: ps) => filterParams (p :: ps) estado_data.parametros
        | _ => estado_data.parametros
      .ok { estado := estado_nombre,
            datos_por_parametro := parametros_filtrados.map
              (fun kp => (kp.1, ParamView.mk kp.2.texto_analisis kp.2.datos_apis)),
            rag_habilitado := true,
            timestamp := estado_data.id }

/-! ## Theorems about the aggregator: case-insensitivity (C3) and the
missing-state failure (C6) -/

/-- The aggregated view with its `nombre` field blanked, leaving only the
content derived from the document store. -/
def stripNombre (ed : EstadoData) : EstadoData := { ed with nombre := "" }

def noHttp : String → Option String := fun _ => none

def c3Store : Firestore :=
  { states := [{ id := "estado_1", states_name := "jalisco",
                 state_id_replacement := some "14" }],
    parameters := [], special_text := [], apis := [] }

/-- Counterexample to C3 as stated: the two views are not identical — the
`nombre` field echoes the caller's capitalization (`nombre=estado_nombre`,
while the query uses `estado_nombre.lower()`). -/
theorem C3_counterexample :
    obtener_datos_estado_completo c3Store noHttp "Jalisco"
      ≠ obtener_datos_estado_completo c3Store noHttp "jalisco" := by
  decide

/-- C3 amended: aggregation is case-insensitive in everything derived from the
store — two spellings with the same lowercasing resolve to the same state
document and produce views identical except for the echoed `nombre` field. -/
theorem C3_case_insensitive_amended (store : Firestore)
    (http : String → Option String) (n1 n2 : String)
    (h : pyLowerStr n1 = pyLowerStr n2) :
    Option.map stripNombre (obtener_datos_estado_completo store http n1)
      = Option.map stripNombre (obtener_datos_estado_completo store http n2) := by
  rw [obtener_datos_estado_completo, obtener_datos_estado_completo, h]
  rcases hf : store.states.find? (fun d => d.states_name == pyLowerStr n2) with _ | d
  · rw [hf]
  · rw [hf]
    simp [stripNombre]

/-- Witness for the amended C3 at `"Jalisco"` / `"jalisco"` on a concrete
store. -/
theorem C3_case_insensitive_amended_witness :
    Option.map stripNombre (obtener_datos_estado_completo c3Store noHttp "Jalisco")
      = Option.map stripNombre (obtener_datos_estado_completo c3Store noHttp "jalisco") :=
  C3_case_insensitive_amended c3Store noHttp "Jalisco" "jalisco" (by decide)

/-- C6: a state name with zero exact (case-insensitive) matches makes the
aggregation return `None` — never a partially constructed view — and the
service layer turn that into a 404; conversely a matched state always yields a
fully constructed view (aggregation has no other hard failure). -/
theorem C6_missing_state (store : Firestore) (http : String → Option String)
    (n : String) :
    (store.states.find? (fun d => d.states_name == pyLowerStr n) = none →
        obtener_datos_estado_completo store http n = none ∧
        consulta_estado_con_rag store http n none
          = .error (404, notFoundDetail n)) ∧
    ((store.states.find? (fun d => d.states_name == pyLowerStr n)).isSome →
        (obtener_datos_estado_completo store http n).isSome) := by
  constructor
  · intro h
    refine ⟨?_, ?_⟩
    · rw [obtener_datos_estado_completo, h]
    · rw [consulta_estado_con_rag, obtener_datos_estado_completo, h]
  · intro h
    rcases hf : store.states.find? (fun d => d.states_name == pyLowerStr n) with _ | d
    · rw [hf] at h
      simp at h
    · rw [obtener_datos_estado_completo, hf]
      rfl

def emptyStore : Firestore :=
  { states := [], parameters := [], special_text := [], apis := [] }

/-- Witness for C6 at a state name absent from a concrete store. -/
theorem C6_missing_state_witness :
    obtener_datos_estado_completo emptyStore noHttp "atlantis" = none ∧
    consulta_estado_con_rag emptyStore noHttp "atlantis" none
      = .error (404, notFoundDetail "atlantis") :=
  (C6_missing_state emptyStore noHttp "atlantis").1 (by decide)

/-! ## The aggregation invariant (C7) -/

lemma mem_dictInsert {α : Type} (k : String) (v : α) (l : List (String × α))
    (a : String) (b : α) (h : (a, b) ∈ dictInsert k v l) :
    (a = k ∧ b = v) ∨ (a, b) ∈ l := by
  induction l with
  | nil =>
      rw [dictInsert, List.mem_singleton, Prod.mk.injEq] at h
      exact Or.inl h
  | cons hd tl ih =>
      obtain ⟨k', v'⟩ := hd
      rw [dictInsert] at h
      split at h
      · next heq =>
          rcases List.mem_cons.mp h with h1 | h1
          · rw [Prod.mk.injEq] at h1
            exact Or.inl h1
          · exact Or.inr (List.mem_cons_of_mem _ h1)
      · next hne =>
          rcases List.mem_cons.mp h with h1 | h1
          · exact Or.inr (h1 ▸ List.mem_cons_self _ _)
          · rcases ih h1 with h2 | h2
            · exact Or.inl h2
            · exact Or.inr (List.mem_cons_of_mem _ h2)

/-- Every entry of the parameter dict built by the aggregation loop either was
already in the accumulator or comes from one enumerated parameter document
with a non-empty name, carrying exactly the analysis-text lookup result and
the metric fetch result for that parameter. -/
lemma buildParams_mem (store : Firestore) (http : String → Option String)
    (estado_id : String) (sir : Option String) :
    ∀ (ps : List ParamDoc) (acc : List (String × ParametroData)) (k : String)
      (pd : ParametroData),
      (k, pd) ∈ buildParams store http estado_id sir ps acc →
      (k, pd) ∈ acc ∨
      ∃ p, p ∈ ps ∧ p.name = some k ∧ k ≠ "" ∧
        pd = { id := p.id, nombre := k,
               texto_analisis := textoFor store estado_id p.id,
               datos_apis := fetchApis store http sir p.related_apis } := by
  intro ps
  induction ps with
  | nil =>
      intro acc k pd h
      exact Or.inl h
  | cons p rest ih =>
      intro acc k pd h
      rw [buildParams] at h
      rcases hname : p.name with _ | nm
      · rw [hname] at h
        rcases ih _ _ _ h with h1 | ⟨q, hq, hrest⟩
        · exact Or.inl h1
        · exact Or.inr ⟨q, List.mem_cons_of_mem _ hq, hrest⟩
      · rw [hname] at h
        dsimp only at h
        by_cases hnm : nm = ""
        · rw [if_pos hnm] at h
          rcases ih _ _ _ h with h1 | ⟨q, hq, hrest⟩
          · exact Or.inl h1
          · exact Or.inr ⟨q, List.mem_cons_of_mem _ hq, hrest⟩
        · rw [if_neg hnm] at h
          rcases ih _ _ _ h with h1 | ⟨q, hq, hrest⟩
          · rcases mem_dictInsert _ _ _ _ _ h1 with ⟨hk, hv⟩ | h2
            · subst hk
              exact Or.inr ⟨p, List.mem_cons_self _ _, hname, hnm, hv⟩
            · exact Or.inl h2
          · exact Or.inr ⟨q, List.mem_cons_of_mem _ hq, hrest⟩

/-- One related api id yields no metric entry: its api document is absent, or
the substituted URL is empty, or the fetch of that URL fails. -/
def sourceDead (store : Firestore) (http : String → Option String)
    (s : String) (api_id : String) : Bool :=
  match store.apis.find? (fun a => a.id == api_id) with
  | none => true
  | some api_data =>
      (replaceStateId api_data.dynamic_url s == "")
        || (http (replaceStateId api_data.dynamic_url s)).isNone

/-- A parameter has no retrievable external metric data: the
`related_api_ids and state_id_replacement` guard is falsy, or every one of its
related sources is dead. -/
def noRetrievableData (store : Firestore) (http : String → Option String)
    (state_id_replacement : Option String) (related_api_ids : List String) :
    Bool :=
  match state_id_replacement with
  | none => true
  | some s =>
      related_api_ids.isEmpty || s == ""
        || related_api_ids.all (sourceDead store http s)

lemma sourceDead_spec (store : Firestore) (http : String → Option String)
    (s api_id : String) (a : ApiDoc)
    (hfind : store.apis.find? (fun x => x.id == api_id) = some a)
    (hd : sourceDead store http s api_id = true) :
    replaceStateId a.dynamic_url s = ""
      ∨ http (replaceStateId a.dynamic_url s) = none := by
  unfold sourceDead at hd
  rw [hfind] at hd
  rw [Bool.or_eq_true] at hd
  rcases hd with h1 | h1
  · exact Or.inl (by simpa using h1)
  · exact Or.inr (Option.isNone_iff_eq_none.mp h1)

lemma fetchApisGo_all_dead (store : Firestore) (http : String → Option String)
    (s : String) :
    ∀ ids, ids.all (sourceDead store http s) = true →
      fetchApisGo store http s ids = [] := by
  intro ids
  induction ids with
  | nil => intro _; rfl
  | cons i rest ih =>
      intro h
      rw [List.all_cons, Bool.and_eq_true] at h
      rw [fetchApisGo]
      rcases hfind : store.apis.find? (fun a => a.id == i) with _ | a
      · rw [hfind]
        exact ih h.2
      · rw [hfind]
        dsimp only
        split
        · exact ih h.2
        · next hurl =>
          rcases sourceDead_spec store http s i a hfind h.1 with h1 | h1
          · exact absurd h1 hurl
          · rw [h1]
            exact ih h.2

lemma fetchApis_of_noRetrievable (store : Firestore)
    (http : String → Option String) (sir : Option String) (ids : List String)
    (h : noRetrievableData store http sir ids = true) :
    fetchApis store http sir ids = [] := by
  rcases sir with _ | s
  · rfl
  · rw [noRetrievableData] at h
    rw [fetchApis]
    split
    · rfl
    · next hcond =>
      push_neg at hcond
      simp only [Bool.or_eq_true] at h
      rcases h with (h1 | h1) | h1
      · exact absurd (List.isEmpty_iff.mp h1) hcond.1
      · exact absurd (by simpa using h1) hcond.2
      · exact fetchApisGo_all_dead store http s ids h1

lemma dictInsert_self_mem {α : Type} (k : String) (v : α) :
    ∀ l : List (String × α), (k, v) ∈ dictInsert k v l := by
  intro l
  induction l with
  | nil => exact List.mem_singleton.mpr rfl
  | cons hd tl ih =>
      obtain ⟨k', v'⟩ := hd
      rw [dictInsert]
      split
      · exact List.mem_cons_self _ _
      · exact List.mem_cons_of_mem _ ih

lemma dictInsert_key_mem {α : Type} (k2 : String) (v2 : α) (k : String) (pd : α) :
    ∀ l : List (String × α), (k, pd) ∈ l →
      ∃ pd', (k, pd') ∈ dictInsert k2 v2 l := by
  intro l
  induction l with
  | nil =>
      intro h
      exact absurd h (List.not_mem_nil _)
  | cons hd tl ih =>
      obtain ⟨k', v'⟩ := hd
      intro h
      rw [dictInsert]
      split
      · next heq =>
          rcases List.mem_cons.mp h with h1 | h1
          · refine ⟨v2, ?_⟩
            rw [Prod.mk.injEq] at h1
            rw [h1.1, heq]
            exact List.mem_cons_self _ _
          · exact ⟨pd, List.mem_cons_of_mem _ h1⟩
      · next hne =>
          rcases List.mem_cons.mp h with h1 | h1
          · exact ⟨pd, h1 ▸ List.mem_cons_self _ _⟩
          · rcases ih h1 with ⟨pd', hpd'⟩
            exact ⟨pd', List.mem_cons_of_mem _ hpd'⟩

/-- The aggregation loop never removes a key that is already in the dict. -/
lemma buildParams_key_preserved (store : Firestore)
    (http : String → Option String) (estado_id : String) (sir : Option String) :
    ∀ (ps : List ParamDoc) (acc : List (String × ParametroData)) (k : String)
      (pd : ParametroData), (k, pd) ∈ acc →
      ∃ pd', (k, pd') ∈ buildParams store http estado_id sir ps acc := by
  intro ps
  induction ps with
  | nil =>
      intro acc k pd h
      exact ⟨pd, h⟩
  | cons p rest ih =>
      intro acc k pd h
      rw [buildParams]
      rcases hname : p.name with _ | nm
      · exact ih acc k pd h
      · dsimp only
        split
        · exact ih acc k pd h
        · obtain ⟨pd', hpd'⟩ := dictInsert_key_mem nm
            (ParametroData.mk p.id nm (textoFor store estado_id p.id)
              (fetchApis store http sir p.related_apis)) k pd acc h
          exact ih _ k pd' hpd'

/-- Completeness of the aggregation loop: every enumerated parameter document
with a non-empty name ends up as a key of the built dict — it is never
omitted. -/
lemma buildParams_complete (store : Firestore)
    (http : String → Option String) (estado_id : String) (sir : Option String) :
    ∀ (ps : List ParamDoc) (acc : List (String × ParametroData))
      (p : ParamDoc) (k : String), p ∈ ps → p.name = some k → k ≠ "" →
      ∃ pd, (k, pd) ∈ buildParams store http estado_id sir ps acc := by
  intro ps
  induction ps with
  | nil =>
      intro acc p k hp _ _
      exact absurd hp (List.not_mem_nil _)
  | cons q rest ih =>
      intro acc p k hp hname hk
      rcases List.mem_cons.mp hp with h1 | h1
      · subst h1
        rw [buildParams, hname]
        dsimp only
        rw [if_neg hk]
        exact buildParams_key_preserved store http estado_id sir rest _ k _
          (dictInsert_self_mem k _ acc)
      · rw [buildParams]
        rcases hqname : q.name with _ | nm
        · exact ih acc p k h1 hname hk
        · dsimp only
          split
          · exact ih acc p k h1 hname hk
          · exact ih _ p k h1 hname hk

/-- C7: on every successful aggregation, (a) the view's parameter keys all
come from the parameter catalog; (b) conversely every enumerated catalog
parameter with a usable name is present in the view — it is never omitted,
whatever the analysis-text store and the metric endpoints do; (c) a missed
(state id, parameter id) analysis-text lookup leaves the parameter carrying
the fixed placeholder text; and (d) each view entry stems from a catalog
parameter whose metric list is exactly its best-effort fetch result — empty
whenever that parameter has no retrievable external metric data.  None of
these absences fails the aggregation. -/
theorem C7_aggregation_invariant (store : Firestore)
    (http : String → Option String) (n : String) (v : EstadoData)
    (hv : obtener_datos_estado_completo store http n = some v) :
    (∀ k pd, (k, pd) ∈ v.parametros →
        ∃ p, p ∈ store.parameters ∧ p.name = some k) ∧
    (∀ (p : ParamDoc) (k : String), p ∈ store.parameters →
        p.name = some k → k ≠ "" →
        ∃ pd, (k, pd) ∈ v.parametros) ∧
    (∀ k pd, (k, pd) ∈ v.parametros →
        store.special_text.find?
            (fun t => t.states_r == v.id && t.parameter_r == pd.id) = none →
        pd.texto_analisis = analysisPlaceholder) ∧
    (∀ k pd, (k, pd) ∈ v.parametros →
        ∃ p, p ∈ store.parameters ∧ p.name = some k ∧ pd.id = p.id ∧
          pd.datos_apis
            = fetchApis store http v.state_id_replacement p.related_apis ∧
          (noRetrievableData store http v.state_id_replacement
              p.related_apis = true →
            pd.datos_apis = [])) := by
  rw [obtener_datos_estado_completo] at hv
  rcases hf : store.states.find? (fun d => d.states_name == pyLowerStr n) with _ | d
  · rw [hf] at hv
    exact absurd hv (by simp)
  · rw [hf] at hv
    injection hv with hv
    subst hv
    refine ⟨?_, ?_, ?_, ?_⟩
    · intro k pd hmem
      dsimp only at hmem
      rcases buildParams_mem store http d.id d.state_id_replacement
          store.parameters [] k pd hmem with h1 | ⟨p, hp, hpname, _, _⟩
      · exact absurd h1 (List.not_mem_nil _)
      · exact ⟨p, hp, hpname⟩
    · intro p k hp hname hk
      dsimp only
      exact buildParams_complete store http d.id d.state_id_replacement
        store.parameters [] p k hp hname hk
    · intro k pd hmem hmiss
      dsimp only at hmem hmiss
      rcases buildParams_mem store http d.id d.state_id_replacement
          store.parameters [] k pd hmem with h1 | ⟨p, _, _, _, hpd⟩
      · exact absurd h1 (List.not_mem_nil _)
      · subst hpd
        dsimp only at hmiss ⊢
        rw [textoFor, hmiss]
    · intro k pd hmem
      dsimp only at hmem
      rcases buildParams_mem store http d.id d.state_id_replacement
          store.parameters [] k pd hmem with h1 | ⟨p, hp, hpname, _, hpd⟩
      · exact absurd h1 (List.not_mem_nil _)
      · subst hpd
        refine ⟨p, hp, hpname, rfl, rfl, ?_⟩
        intro hdead
        dsimp only
        exact fetchApis_of_noRetrievable store http d.state_id_replacement
          p.related_apis hdead

def c7Store : Firestore :=
  { states := [{ id := "estado_1", states_name := "jalisco",
                 state_id_replacement := some "14" }],
    parameters := [{ id := "param_1", name := some "Situación de Seguridad",
                     related_apis := [] }],
    special_text := [], apis := [] }

/-- Witness for C7 on a concrete store: the single catalog parameter is not
omitted — it appears as a key of the aggregated view even though its
analysis-text lookup misses and it has no retrievable metric data. -/
theorem C7_aggregation_invariant_witness :
    ∃ pd, ("Situación de Seguridad", pd) ∈
      (EstadoData.mk "estado_1" "jalisco" (some "14")
        [("Situación de Seguridad",
          ParametroData.mk "param_1" "Situación de Seguridad"
            analysisPlaceholder [])]).parametros :=
  (C7_aggregation_invariant c7Store noHttp "jalisco"
      (EstadoData.mk "estado_1" "jalisco" (some "14")
        [("Situación de Seguridad",
          ParametroData.mk "param_1" "Situación de Seguridad"
            analysisPlaceholder [])])
      (by decide)).2.1
    (ParamDoc.mk "param_1" (some "Situación de Seguridad") [])
    "Situación de Seguridad" (by decide) (by decide) (by decide)

/-! ## Fault isolation of a single metric source (C8)

`failAt http u` is the world in which the fetch of the single URL `u` fails (a
non-200 response or a raised exception) while every other fetch behaves as in
`http`. -/

def failAt (http : String → Option String) (u : String) : String → Option String :=
  fun url => if url == u then none else http url

def dropUrlResults (u : String) (l : List ApiResult) : List ApiResult :=
  l.filter (fun r => !(r.url == u))

def dropUrlParam (u : String) (pd : ParametroData) : ParametroData :=
  { pd with datos_apis := dropUrlResults u pd.datos_apis }

def dropUrlDict (u : String) (l : List (String × ParametroData)) :
    List (String × ParametroData) :=
  l.map (fun kp => (kp.1, dropUrlParam u kp.2))

def dropUrlEstado (u : String) (ed : EstadoData) : EstadoData :=
  { ed with parametros := dropUrlDict u ed.parametros }

lemma failAt_apply (http : String → Option String) (u x : String) :
    failAt http u x = if x == u then none else http x := rfl

lemma fetchApisGo_failAt (store : Firestore) (http : String → Option String)
    (s u : String) :
    ∀ ids, fetchApisGo store (failAt http u) s ids
      = dropUrlResults u (fetchApisGo store http s ids) := by
  intro ids
  induction ids with
  | nil => rfl
  | cons i rest ih =>
      rw [fetchApisGo, fetchApisGo]
      rcases hfind : store.apis.find? (fun a => a.id == i) with _ | a
      · rw [hfind]
        exact ih
      · rw [hfind]
        dsimp only
        split
        · exact ih
        · cases hu : (replaceStateId a.dynamic_url s == u)
          · rw [failAt_apply, if_neg (by simp [hu])]
            rcases hhttp : http (replaceStateId a.dynamic_url s) with _ | payload
            · exact ih
            · simp only [dropUrlResults, List.filter_cons, hu, Bool.not_false,
                if_true]
              rw [dropUrlResults] at ih
              rw [ih]
          · rw [failAt_apply, if_pos hu]
            rcases hhttp : http (replaceStateId a.dynamic_url s) with _ | payload
            · exact ih
            · simp only [dropUrlResults, List.filter_cons, hu, Bool.not_true,
                Bool.false_eq_true, if_false]
              rw [dropUrlResults] at ih
              exact ih

lemma fetchApis_failAt (store : Firestore) (http : String → Option String)
    (u : String) (sir : Option String) (ids : List String) :
    fetchApis store (failAt http u) sir ids
      = dropUrlResults u (fetchApis store http sir ids) := by
  rcases sir with _ | s
  · rfl
  · rw [fetchApis, fetchApis]
    split
    · rfl
    · exact fetchApisGo_failAt store http s u ids

lemma dropUrlDict_dictInsert (u k : String) (pd : ParametroData)
    (l : List (String × ParametroData)) :
    dropUrlDict u (dictInsert k pd l)
      = dictInsert k (dropUrlParam u pd) (dropUrlDict u l) := by
  induction l with
  | nil => rfl
  | cons hd tl ih =>
      obtain ⟨k', v'⟩ := hd
      rw [dictInsert]
      by_cases hk : k' = k
      · rw [if_pos hk]
        have h2 : dropUrlDict u ((k', v') :: tl)
            = (k', dropUrlParam u v') :: dropUrlDict u tl := rfl
        rw [h2, dictInsert, if_pos hk]
        rfl
      · rw [if_neg hk]
        have h1 : dropUrlDict u ((k', v') :: dictInsert k pd tl)
            = (k', dropUrlParam u v') :: dropUrlDict u (dictInsert k pd tl) := rfl
        have h2 : dropUrlDict u ((k', v') :: tl)
            = (k', dropUrlParam u v') :: dropUrlDict u tl := rfl
        rw [h1, h2, ih, dictInsert, if_neg hk]

/-- `dropUrlDict_dictInsert` restated at the shape produced by the aggregation
loop, whose inserted value is a `ParametroData` literal. -/
lemma dictInsert_dropUrl_mk (u k i nb tx : String) (ds : List ApiResult)
    (l : List (String × ParametroData)) :
    dictInsert k (ParametroData.mk i nb tx (dropUrlResults u ds)) (dropUrlDict u l)
      = dropUrlDict u (dictInsert k (ParametroData.mk i nb tx ds) l) := by
  rw [dropUrlDict_dictInsert]
  rfl

lemma buildParams_failAt (store : Firestore) (http : String → Option String)
    (u : String) (estado_id : String) (sir : Option String) :
    ∀ (ps : List ParamDoc) (acc : List (String × ParametroData)),
      buildParams store (failAt http u) estado_id sir ps (dropUrlDict u acc)
        = dropUrlDict u (buildParams store http estado_id sir ps acc) := by
  intro ps
  induction ps with
  | nil => intro acc; rfl
  | cons p rest ih =>
      intro acc
      rw [buildParams, buildParams]
      rcases hname : p.name with _ | nm
      · exact ih acc
      · dsimp only
        split
        · exact ih acc
        · rw [fetchApis_failAt, dictInsert_dropUrl_mk]
          exact ih _

/-- C8: failing the fetch of one external metric source URL never makes the
aggregation fail, and changes the result only by removing the entries carrying
that URL from the affected parameters' metric lists; all other sources,
parameters and fields are untouched. -/
theorem C8_metric_fault_isolation (store : Firestore)
    (http : String → Option String) (u : String) (n : String) :
    obtener_datos_estado_completo store (failAt http u) n
      = Option.map (dropUrlEstado u) (obtener_datos_estado_completo store http n) ∧
    (obtener_datos_estado_completo store (failAt http u) n).isSome
      = (obtener_datos_estado_completo store http n).isSome := by
  have hmain : obtener_datos_estado_completo store (failAt http u) n
      = Option.map (dropUrlEstado u) (obtener_datos_estado_completo store http n) := by
    rw [obtener_datos_estado_completo, obtener_datos_estado_completo]
    rcases hf : store.states.find? (fun d => d.states_name == pyLowerStr n) with _ | d
    · rw [hf]
      rfl
    · rw [hf]
      dsimp only [Option.map]
      rw [dropUrlEstado]
      have hb := buildParams_failAt store http u d.id d.state_id_replacement
        store.parameters []
      rw [show dropUrlDict u [] = [] from rfl] at hb
      rw [hb]
  refine ⟨hmain, ?_⟩
  rw [hmain]
  rcases obtener_datos_estado_completo store http n with _ | v
  · rfl
  · rfl

/-! ## Chat-completion provider and Response Composer

`CerebrasClient.chat_completion` (cerebras_client.py lines 25-88) returns the
parsed JSON on a 200 response and, for any other status or a raised exception,
a dict `{"error": …, "details": …}` — never an exception.
`CerebrasClient.generate_response` (lines 106-143) turns that dict into plain
text: `f"Error: {response['error']}"` on an error dict, the first choice's
message content otherwise, or a fixed fallback when that path is missing. -/

/-- Outcome of the one chat-completion HTTP call a request performs:
a 200 response whose body may or may not carry
`choices[0].message.content`, a non-200 status with its body text, or a raised
connection exception. -/
inductive ProviderOutcome where
  | ok (content : Option String)
  | httpError (status : Nat) (body : String)
  | connectionFailure (msg : String)
deriving DecidableEq

def generate_response : ProviderOutcome → String
  | .ok (some content) => content
  | .ok none => "Error: No se pudo obtener la respuesta"
  | .httpError status _ => "Error: " ++ ("API Error: " ++ toString status)
  | .connectionFailure _ => "Error: " ++ "Connection Error"

/-- `UserContext` (models/chatbot.py lines 29-39), restricted to the fields
`SimpleRAGAgent.process_chat_with_rag` reads. -/
structure UserContext where
  current_state : Option String
  session_id : Option String
  rag_enabled : Bool
deriving DecidableEq

/-- `ChatResponseStructured` (models/chatbot.py lines 101-118), restricted to
the fields the agent sets on every path (timestamps and the free-form dict
fields are omitted). -/
structure Envelope where
  response : String
  confidence : ℚ
  sources : List String
  suggested_actions : List String
  follow_up_questions : List String
  model_used : String
  session_id : String
  memory_used : Bool
  rag_enabled : Bool
deriving DecidableEq

/-- The `except Exception` envelope (simple_rag_agent.py lines 249-258):
apology text, confidence 0.0, no sources, pydantic defaults elsewhere. -/
def degradedEnvelope (ctx : UserContext) : Envelope :=
  { response := "Lo siento, ocurrió un error al procesar tu consulta. Por favor, inténtalo de nuevo.",
    confidence := 0.0,
    sources := [],
    suggested_actions := [],
    follow_up_questions := [],
    model_used := "cerebras-gpt-oss-120b",
    session_id := pyOrStr ctx.session_id "default",
    memory_used := false,
    rag_enabled := false }

/-- The secondary RAG trigger keywords (simple_rag_agent.py lines 139-141). -/
def ragTriggerKeywords : List String :=
  ["estado", "jalisco", "mexico", "análisis", "datos", "parámetro", "rag"]

/-- `messages[-1]["content"]`, with `{"role": "user", "content": ""}` when the
list is empty (simple_rag_agent.py line 104). -/
def lastUserMessage (messages : List (String × String)) : String :=
  match messages.getLast? with
  | some last_message => last_message.2
  | none => ""

/-- `SimpleRAGAgent.process_chat_with_rag` (simple_rag_agent.py lines 93-247).
`ragOracle` is `rag_service.consulta_estado_con_rag` as an oracle from the
queried state name to its outcome (`.error` = raised `HTTPException`, caught
by the inner `except` and recovered into the no-RAG fallback); `provider` is
the outcome of the single Cerebras call the executed path performs.  The
memory side effect is `updateConversationMemory`, modelled separately. -/
def process_chat_with_rag (ctx : UserContext) (messages : List (String × String))
    (ragOracle : String → Except (Nat × String) RespuestaRag)
    (provider : ProviderOutcome) : Envelope :=
  let user_message := lastUserMessage messages
  match check_mexico_restriction user_message with
  | (false, restriction_message) =>
      { response := restriction_message,
        confidence := 1.0,
        sources := ["Sistema de restricciones MX32"],
        suggested_actions :=
          ["Ver datos de estados mexicanos",
           "Explorar parámetros disponibles",
           "Consultar información de seguridad",
           "Analizar datos económicos"],
        follow_up_questions :=
          ["¿Sobre qué estado de México te gustaría saber?",
           "¿Qué parámetro te interesa analizar?",
           "¿Te gustaría ver una comparación entre estados?"],
        model_used := "cerebras-gpt-oss-120b",
        session_id := pyOrStr ctx.session_id "default",
        memory_used := true,
        rag_enabled := false }
  | (true, _) =>
      let session_id := pyOrStr ctx.session_id "default"
      let entities := extract_entities_from_message user_message
      let use_rag := ctx.rag_enabled
        && ragTriggerKeywords.any (fun keyword => kwIn keyword user_message)
      let gen : String × Bool × List String × ℚ :=
        if use_rag then
          match ragOracle (pyOrStr ctx.current_state "jalisco") with
          | .ok _rag_data =>
              (generate_response provider, true,
               ["Base de datos MX32", "RAG Analysis", "Cerebras AI"], 0.9)
          | .error _ =>
              (generate_response provider, false,
               ["Base de datos MX32", "Cerebras AI"], 0.8)
        else
          (generate_response provider, false,
           ["Base de datos MX32", "Cerebras AI"], 0.8)
      let suggested_actions :=
        (if truthyOpt ctx.current_state then
          ["Ver datos completos de " ++ optVal ctx.current_state,
           "Comparar " ++ optVal ctx.current_state ++ " con otros estados"]
         else []) ++
        (if entities.contains "seguridad" then
          ["Ver análisis detallado de seguridad",
           "Comparar indicadores de seguridad"]
         else []) ++
        (if entities.contains "economia" || entities.contains "economía" then
          ["Analizar indicadores económicos", "Ver datos de empleo"]
         else [])
      let follow_up_questions :=
        (if truthyOpt ctx.current_state then
          ["¿Te gustaría comparar " ++ optVal ctx.current_state
             ++ " con otros estados?",
           "¿Qué otros parámetros te interesan de " ++ optVal ctx.current_state
             ++ "?"]
         else []) ++
        (if entities.contains "seguridad" then
          ["¿Te interesa analizar las tendencias de seguridad?"]
         else [])
      { response := gen.1,
        confidence := gen.2.2.2,
        sources := gen.2.2.1,
        suggested_actions := suggested_actions.take 5,
        follow_up_questions := follow_up_questions.take 3,
        model_used := "cerebras-gpt-oss-120b",
        session_id := session_id,
        memory_used := true,
        rag_enabled := gen.2.1 }

/-! ## Similar-states tool

`buscar_estados_similares` (tools/rag_tools.py lines 169-232). -/

structure SimilarEntry where
  estado : String
  similitud_score : ℚ
  datos : RespuestaRag
deriving DecidableEq

inductive SimilarStatesResult where
  | ok (estado_referencia parametro : String)
      (estados_similares : List SimilarEntry)
  | err (estado_referencia parametro : String) (error : String)
deriving DecidableEq

def todos_estados : List String :=
  ["jalisco", "nuevo leon", "ciudad de mexico", "queretaro", "yucatan",
   "quintana roo", "baja california", "sonora", "chihuahua", "coahuila"]

def buscar_estados_similares (store : Firestore) (http : String → Option String)
    (estado_referencia parametro : String) : SimilarStatesResult :=
  match consulta_estado_con_rag store http estado_referencia (some [parametro]) with
  | .error e => .err estado_referencia parametro e.2
  | .ok _datos_referencia =>
      let _estados_a_comparar :=
        todos_estados.filter (fun e => e != pyLowerStr estado_referencia)
      -- The source initialises `estados_similares = []` and then iterates over
      -- `estados_similares[:5]` — the just-initialised empty result list, not
      -- `estados_a_comparar` — so the loop body (which would fetch each
      -- candidate's data and append an entry) never executes.
      let estados_similares : List SimilarEntry :=
        (([] : List SimilarEntry).take 5).foldl (fun acc _e => acc) []
      .ok estado_referencia parametro estados_similares

/-! ## Theorems about the Response Composer (C2) -/

/-- Counterexample to C2 as stated: a request that passes the Scope Guard and
whose provider call returns HTTP 500 does not get the degraded envelope — the
error is embedded as the response text `"Error: API Error: 500"` with the
normal path's confidence 0.8 and non-empty sources (`generate_response`
converts the provider's error dict into a string instead of raising). -/
theorem C2_counterexample :
    process_chat_with_rag (UserContext.mk none none false) [("user", "jalisco")]
        (fun _ => Except.error (404, ""))
        (ProviderOutcome.httpError 500 "Internal Server Error")
      ≠ degradedEnvelope (UserContext.mk none none false) ∧
    (process_chat_with_rag (UserContext.mk none none false) [("user", "jalisco")]
        (fun _ => Except.error (404, ""))
        (ProviderOutcome.httpError 500 "Internal Server Error")).response
      = "Error: API Error: 500" ∧
    (process_chat_with_rag (UserContext.mk none none false) [("user", "jalisco")]
        (fun _ => Except.error (404, ""))
        (ProviderOutcome.httpError 500 "Internal Server Error")).confidence
      = 0.8 ∧
    (process_chat_with_rag (UserContext.mk none none false) [("user", "jalisco")]
        (fun _ => Except.error (404, ""))
        (ProviderOutcome.httpError 500 "Internal Server Error")).sources
      = ["Base de datos MX32", "Cerebras AI"] := by
  have hE : process_chat_with_rag (UserContext.mk none none false)
      [("user", "jalisco")] (fun _ => Except.error (404, ""))
      (ProviderOutcome.httpError 500 "Internal Server Error")
      = { response := "Error: API Error: 500",
          confidence := 0.8,
          sources := ["Base de datos MX32", "Cerebras AI"],
          suggested_actions := [],
          follow_up_questions := [],
          model_used := "cerebras-gpt-oss-120b",
          session_id := "default",
          memory_used := true,
          rag_enabled := false } := rfl
  refine ⟨?_, by rw [hE], by rw [hE], by rw [hE]⟩
  rw [hE]
  intro h
  have hs := congrArg Envelope.sources h
  simp [degradedEnvelope] at hs

/-- C2 amended: on every request that passes the Scope Guard, the envelope's
response text is whatever `generate_response` produced — for a provider error
that is the string `"Error: API Error: {status}"` or `"Error: Connection
Error"` — while confidence stays at the normal path's 0.9 or 0.8 with
non-empty sources; the degraded envelope (apology, confidence 0.0, empty
sources) is not produced by a provider error, only by an exception escaping
the processing body. -/
theorem C2_provider_error_amended (ctx : UserContext)
    (messages : List (String × String))
    (ragOracle : String → Except (Nat × String) RespuestaRag)
    (provider : ProviderOutcome)
    (hscope : (check_mexico_restriction (lastUserMessage messages)).1 = true) :
    (process_chat_with_rag ctx messages ragOracle provider).response
        = generate_response provider ∧
    ((process_chat_with_rag ctx messages ragOracle provider).confidence = 0.9
      ∨ (process_chat_with_rag ctx messages ragOracle provider).confidence = 0.8) ∧
    (process_chat_with_rag ctx messages ragOracle provider).sources ≠ [] ∧
    (∀ status body, generate_response (.httpError status body)
        = "Error: " ++ ("API Error: " ++ toString status)) ∧
    (∀ msg, generate_response (.connectionFailure msg)
        = "Error: " ++ "Connection Error") ∧
    process_chat_with_rag ctx messages ragOracle provider
      ≠ degradedEnvelope ctx := by
  rw [process_chat_with_rag]
  rcases hchk : check_mexico_restriction (lastUserMessage messages) with ⟨b, rmsg⟩
  rw [hchk] at hscope
  dsimp only at hscope
  subst hscope
  by_cases hur : (ctx.rag_enabled
      && ragTriggerKeywords.any fun keyword =>
        kwIn keyword (lastUserMessage messages)) = true
  · rw [hur]
    rcases horacle : ragOracle (pyOrStr ctx.current_state "jalisco") with e | r
    · refine ⟨rfl, Or.inr rfl,
        (show (["Base de datos MX32", "Cerebras AI"] : List String) ≠ [] by simp),
        fun status body => rfl, fun msg => rfl, ?_⟩
      intro h
      have hs : (["Base de datos MX32", "Cerebras AI"] : List String)
          = (degradedEnvelope ctx).sources := congrArg Envelope.sources h
      simp [degradedEnvelope] at hs
    · refine ⟨rfl, Or.inl rfl,
        (show (["Base de datos MX32", "RAG Analysis", "Cerebras AI"]
            : List String) ≠ [] by simp),
        fun status body => rfl, fun msg => rfl, ?_⟩
      intro h
      have hs : (["Base de datos MX32", "RAG Analysis", "Cerebras AI"]
            : List String)
          = (degradedEnvelope ctx).sources := congrArg Envelope.sources h
      simp [degradedEnvelope] at hs
  · rw [Bool.not_eq_true] at hur
    rw [hur]
    refine ⟨rfl, Or.inr rfl,
      (show (["Base de datos MX32", "Cerebras AI"] : List String) ≠ [] by simp),
      fun status body => rfl, fun msg => rfl, ?_⟩
    intro h
    have hs : (["Base de datos MX32", "Cerebras AI"] : List String)
        = (degradedEnvelope ctx).sources := congrArg Envelope.sources h
    simp [degradedEnvelope] at hs

/-- Witness for the amended C2 at a concrete request and a concrete provider
failure. -/
theorem C2_provider_error_amended_witness :
    (process_chat_with_rag (UserContext.mk none none false)
        [("user", "jalisco y colima")] (fun _ => Except.error (404, "x"))
        (ProviderOutcome.httpError 503 "unavailable")).response
      = generate_response (ProviderOutcome.httpError 503 "unavailable") :=
  (C2_provider_error_amended (UserContext.mk none none false)
      [("user", "jalisco y colima")] (fun _ => Except.error (404, "x"))
      (ProviderOutcome.httpError 503 "unavailable") (by decide)).1

/-! ## Theorems about the similar-states tool (C9) -/

/-- Counterexample to C9 as stated: the tool does not return a successful
result for *every* reference state — an unknown reference state makes the
reference lookup raise, and the tool returns its failure dict. -/
theorem C9_counterexample :
    buscar_estados_similares emptyStore noHttp "atlantis" "Seguridad"
      = .err "atlantis" "Seguridad" (notFoundDetail "atlantis") := by
  decide

/-- C9 amended: whenever the reference-state lookup succeeds the tool returns
a successful result whose similar-states list is empty — the loop iterates
the just-initialised empty result list instead of the filtered candidates, a
permanent no-op; when the reference lookup raises, the failure is reported
instead. -/
theorem C9_similar_states_noop (store : Firestore)
    (http : String → Option String) (ref param : String) :
    (∀ r, consulta_estado_con_rag store http ref (some [param]) = .ok r →
        buscar_estados_similares store http ref param = .ok ref param []) ∧
    (∀ e, consulta_estado_con_rag store http ref (some [param]) = .error e →
        buscar_estados_similares store http ref param = .err ref param e.2) := by
  constructor
  · intro r hr
    rw [buscar_estados_similares, hr]
    rfl
  · intro e he
    rw [buscar_estados_similares, he]

/-- Witness for C9 on a concrete store where the reference lookup succeeds:
the similar-states list is empty. -/
theorem C9_similar_states_noop_witness :
    buscar_estados_similares c3Store noHttp "jalisco" "Seguridad"
      = .ok "jalisco" "Seguridad" [] :=
  (C9_similar_states_noop c3Store noHttp "jalisco" "Seguridad").1
    { estado := "jalisco", datos_por_parametro := [],
      rag_habilitado := true, timestamp := "estado_1" }
    (by decide)

/-! ## RAG gating, fallback confidence and the default state (C10) -/

/-- C10: retrieval runs only when the caller's `rag_enabled` flag is set AND a
secondary trigger keyword occurs in the lowercased message (otherwise the
envelope is oracle-independent with `rag_enabled = false` and confidence 0.8
on the allowed path, even when the caller requested RAG); and with no
`current_state` in the context the oracle is only ever consulted at
`"jalisco"`. -/
theorem C10_rag_gating (ctx : UserContext) (messages : List (String × String))
    (provider : ProviderOutcome)
    (oracle oracle' : String → Except (Nat × String) RespuestaRag) :
    ((ctx.rag_enabled && ragTriggerKeywords.any
        (fun keyword => kwIn keyword (lastUserMessage messages))) = false →
      process_chat_with_rag ctx messages oracle provider
        = process_chat_with_rag ctx messages oracle' provider) ∧
    ((check_mexico_restriction (lastUserMessage messages)).1 = true →
      (ctx.rag_enabled && ragTriggerKeywords.any
          (fun keyword => kwIn keyword (lastUserMessage messages))) = false →
      (process_chat_with_rag ctx messages oracle provider).rag_enabled = false ∧
      (process_chat_with_rag ctx messages oracle provider).confidence = 0.8) ∧
    (ctx.current_state = none →
      oracle "jalisco" = oracle' "jalisco" →
      process_chat_with_rag ctx messages oracle provider
        = process_chat_with_rag ctx messages oracle' provider) := by
  refine ⟨?_, ?_, ?_⟩
  · intro hur
    rw [process_chat_with_rag, process_chat_with_rag]
    rcases hchk : check_mexico_restriction (lastUserMessage messages) with ⟨b, rmsg⟩
    cases b
    · rfl
    · rw [hur]
      rfl
  · intro hscope hur
    rw [process_chat_with_rag]
    rcases hchk : check_mexico_restriction (lastUserMessage messages) with ⟨b, rmsg⟩
    rw [hchk] at hscope
    dsimp only at hscope
    subst hscope
    rw [hur]
    exact ⟨rfl, rfl⟩
  · intro hcs horacle
    rw [process_chat_with_rag, process_chat_with_rag]
    rcases hchk : check_mexico_restriction (lastUserMessage messages) with ⟨b, rmsg⟩
    cases b
    · rfl
    · rw [hcs]
      dsimp only [pyOrStr]
      rw [horacle]

/-- Witness for C10: a message that passes the Scope Guard (it names the state
Colima) but contains no secondary trigger keyword yields `rag_enabled = false`
and confidence 0.8 although the caller set the RAG flag. -/
theorem C10_rag_gating_witness :
    (process_chat_with_rag (UserContext.mk none none true) [("user", "colima")]
        (fun _ => Except.error (404, "x"))
        (ProviderOutcome.ok (some "hola"))).rag_enabled = false ∧
    (process_chat_with_rag (UserContext.mk none none true) [("user", "colima")]
        (fun _ => Except.error (404, "x"))
        (ProviderOutcome.ok (some "hola"))).confidence = 0.8 :=
  (C10_rag_gating (UserContext.mk none none true) [("user", "colima")]
      (ProviderOutcome.ok (some "hola")) (fun _ => Except.error (404, "x"))
      (fun _ => Except.error (404, "x"))).2.1 (by decide) (by decide)

end MX32
